import Mathlib

/-!
Verification of the HR behavioral-answer analysis pipeline
(`backend/services/hr_analyzer.py`).

The Python module is embedded shallowly: text is a list of characters,
Python `str` helpers (`split`, `strip`, `count`, substring tests, the
handful of regular expressions actually used) are implemented as
executable Lean functions, floats appearing in the score arithmetic are
modelled as exact rationals (every float computed by the module is a
small dyadic rational, so the model is exact on all reachable values),
and Python's `int()` truncation toward zero is `pytrunc`.
-/

/-- Python text, one `Char` per Python character. -/
abbrev Text := List Char

/-- Characters treated as whitespace by `str.split()` / `str.strip()`
(ASCII fragment). -/
def isSpaceC (c : Char) : Bool :=
  c == ' ' || c == '\t' || c == '\n' || c == '\r' || c == '\x0b' || c == '\x0c'

/-- `str.lower()` (ASCII fragment). -/
def lowerT (t : Text) : Text := t.map Char.toLower

/-- Split at every character satisfying `p`, keeping empty pieces,
as `re.split` with a single-character class does. -/
def splitOnPred (p : Char → Bool) : Text → List Text
  | [] => [[]]
  | c :: rest =>
    if p c then [] :: splitOnPred p rest
    else
      match splitOnPred p rest with
      | [] => [[c]]
      | w :: ws => (c :: w) :: ws

/-- Python `str.split()`: split on whitespace runs, dropping empties. -/
def wordsOf (t : Text) : List Text :=
  (splitOnPred isSpaceC t).filter (fun w => w ≠ [])

/-- Python `str.strip()`. -/
def stripT (t : Text) : Text :=
  ((t.dropWhile isSpaceC).reverse.dropWhile isSpaceC).reverse

/-- Python `in` on strings: `p` occurs as a contiguous substring of `t`. -/
def isSub (p : Text) : Text → Bool
  | [] => p.isEmpty
  | c :: rest => p.isPrefixOf (c :: rest) || isSub p rest

/-- Left-to-right scan for non-overlapping occurrences of the nonempty
pattern `p`; `skip` counts characters still to pass over after a match. -/
def countOccsGo (p : Text) : Text → Nat → Nat
  | [], _ => 0
  | c :: rest, skip =>
    if skip ≠ 0 then countOccsGo p rest (skip - 1)
    else if p.isPrefixOf (c :: rest) then 1 + countOccsGo p rest (p.length - 1)
    else countOccsGo p rest 0

/-- Python `str.count`: non-overlapping occurrences, scanning left to right. -/
def countOccs (p t : Text) : Nat :=
  if p.isEmpty then t.length + 1 else countOccsGo p t 0

/-- `string.punctuation` from the Python standard library. -/
def string_punctuation : Text :=
  "!\"#$%&\x27()*+,-./:;<=>?@[\\]^_\x60\x7b|\x7d~".data

def isPunctC (c : Char) : Bool := string_punctuation.contains c

/-- Python `str.isdigit` (ASCII fragment, as used by `\d` too). -/
def isDigitC (c : Char) : Bool := decide ('0' ≤ c ∧ c ≤ '9')

/-- Number of entries of the lexicon `lex` occurring in `t`
(`sum(1 for w in lex if w in t)`). -/
def countHits (lex : List String) (t : Text) : Nat :=
  lex.countP (fun kw => isSub kw.data t)

/-!
Rational arithmetic: the `Batteries` implementations of `Rat.mul` and
`Rat.add` behind `*` and `/` on `ℚ` are `@[irreducible]`, so concrete
values would not evaluate inside `decide`.  We therefore use our own
kernel-reducible multiplication and division on `ℚ`, proved equal to the
library operations (`qmul_eq_mul`, `qdiv_eq_div` below), and phrase the
embedded float arithmetic with them.  Every float the Python module
computes is a small dyadic rational, so `ℚ` models it exactly.
-/

/-- Multiplication on `ℚ` by numerator/denominator products. -/
def qmul (a b : ℚ) : ℚ := mkRat (a.num * b.num) (a.den * b.den)

/-- Division on `ℚ` by cross multiplication. -/
def qdiv (a b : ℚ) : ℚ := Rat.divInt (a.num * b.den) (a.den * b.num)

/-- Python `int()` on a rational: truncation toward zero. -/
def pytrunc (q : ℚ) : Int :=
  if 0 ≤ q.num then ((q.num.toNat / q.den : Nat) : Int)
  else -((q.num.natAbs / q.den : Nat) : Int)

/-! ## Lexicon Store (module-level constant lists) -/

def CONFIDENCE_KEYWORDS : List String := [
    "led", "lead", "managed", "directed", "spearheaded", "initiated",
    "achieved", "accomplished", "delivered", "exceeded", "surpassed",
    "improved", "increased", "reduced", "optimized", "transformed",
    "responsible", "ownership", "accountable", "drove", "championed",
    "successfully", "effectively", "efficiently", "proactively",
    "decided", "determined", "resolved", "solved", "overcame"
]

def LEADERSHIP_KEYWORDS : List String := [
    "team", "collaborated", "coordinated", "mentored", "coached",
    "delegated", "motivated", "inspired", "influenced", "persuaded",
    "negotiated", "facilitated", "organized", "supervised", "trained",
    "led", "leadership", "cross-functional", "stakeholder", "consensus"
]

def STAR_INDICATORS : List (String × List String) := [
    ("situation", [
        "situation", "context", "background", "scenario", "challenge",
        "problem", "issue", "when", "while working", "at my previous",
        "in my role", "during", "faced with"
    ]),
    ("task", [
        "task", "responsibility", "goal", "objective", "assigned",
        "needed to", "had to", "required to", "expected to", "my role was",
        "i was responsible", "charged with"
    ]),
    ("action", [
        "action", "i did", "i took", "implemented", "developed", "created",
        "designed", "built", "established", "initiated", "executed",
        "i decided", "i started", "i began", "my approach", "steps i took"
    ]),
    ("result", [
        "result", "outcome", "impact", "achieved", "accomplished",
        "led to", "resulted in", "consequently", "as a result", "ultimately",
        "success", "improved", "increased", "reduced", "saved", "delivered"
    ])
]

/-- Value of a key of an ordered string-keyed dict of keyword lists. -/
def dictGet (d : List (String × List String)) (k : String) : List String :=
  match d.find? (fun p => p.1 == k) with
  | some p => p.2
  | none => []

def QUESTION_RELEVANCE_MAP : List (String × List String) := [
    ("challenge", ["challenge", "difficult", "hard", "problem", "obstacle", "struggle", "issue", "tough", "overcome"]),
    ("difficult team member", ["team", "colleague", "coworker", "conflict", "disagreement", "difficult person", "communication"]),
    ("leadership", ["lead", "led", "team", "managed", "directed", "initiative", "guided", "motivated", "inspired"]),
    ("failed", ["fail", "mistake", "error", "wrong", "learned", "lesson", "setback", "didn\x27t work"]),
    ("deadline", ["deadline", "time", "urgent", "quick", "fast", "pressure", "rushed", "days", "hours", "weeks"]),
    ("above and beyond", ["extra", "beyond", "more than", "additional", "volunteered", "initiative", "own time"]),
    ("persuade", ["persuade", "convince", "argument", "presented", "explained", "showed", "demonstrated", "negotiated"]),
    ("feedback", ["feedback", "criticism", "critique", "review", "told me", "suggested", "improved", "changed"])
]

def VAGUE_PHRASES : List String := [
    "i worked hard", "i did my best", "i tried", "we worked together",
    "it was difficult", "i managed it", "things worked out", "it went well",
    "i handled it", "i dealt with it", "we figured it out", "i made it happen",
    "i was successful", "good results", "positive outcome", "everything was fine"
]

def HEDGING_WORDS : List String := [
    "maybe", "perhaps", "i think", "i guess", "sort of", "kind of",
    "probably", "might have", "could have", "possibly", "somewhat",
    "i believe", "i feel like", "in a way", "more or less"
]

def OFF_TOPIC_PHRASES : List String := [
    "what was the question", "can you repeat", "i forgot",
    "anyway", "by the way", "unrelated but", "off topic"
]

/-! ## The `RED_FLAG_PATTERNS` regular expressions, compiled by hand

Each of the eleven patterns in `RED_FLAG_PATTERNS` is either a literal
substring or one of four simple shapes, implemented below exactly. -/

/-- `(.)\1{4,}`: five or more consecutive copies of one character. -/
def hasRepeatedRun : Text → Bool
  | [] => false
  | a :: rest =>
    (match rest with
     | b :: c :: d :: e :: _ => a == b && b == c && c == d && d == e
     | _ => false) || hasRepeatedRun rest

/-- One position of `w\s*w` (the repeated word `w` separated by
optional whitespace); `w` starts with a non-whitespace character. -/
def pairAt (w s : Text) : Bool :=
  w.isPrefixOf s && w.isPrefixOf (List.dropWhile isSpaceC (List.drop w.length s))

/-- `re.search` of `w\s*w` anywhere in the text. -/
def hasPairWithWs (w : Text) : Text → Bool
  | [] => pairAt w []
  | c :: rest => pairAt w (c :: rest) || hasPairWithWs w rest

/-- One position of `;\s*;\s*;`. -/
def semiAt (s : Text) : Bool :=
  match s with
  | ';' :: r1 =>
    (match List.dropWhile isSpaceC r1 with
     | ';' :: r2 =>
       (match List.dropWhile isSpaceC r2 with
        | ';' :: _ => true
        | _ => false)
     | _ => false)
  | _ => false

/-- `re.search` of `;\s*;\s*;` anywhere in the text. -/
def hasTripleSemi : Text → Bool
  | [] => false
  | c :: rest => semiAt (c :: rest) || hasTripleSemi rest

def stock_reply_words : List String :=
  ["yes", "no", "ok", "okay", "sure", "fine", "good", "bad", "idk", "dunno"]

/-- `re.search(r"^(yes|no|...)\.?$", t)` without `re.MULTILINE`: the whole
text is one of the stock words, optionally followed by a period, optionally
followed by one final newline (which `$` also accepts). -/
def matchesStockReply (t : Text) : Bool :=
  stock_reply_words.any (fun w =>
    t == w.data || t == (w.data ++ ".".data) ||
    t == (w.data ++ "\n".data) || t == (w.data ++ ".\n".data))

/-- Disjunction of the eleven `RED_FLAG_PATTERNS` (the loop in
`detect_gibberish` breaks at the first match, records one fixed issue and
severity 3, so only the disjunction is observable). -/
def hasRedFlagPattern (t : Text) : Bool :=
  isSub "asdf".data t || isSub "qwerty".data t || isSub "zxcv".data t ||
  isSub "jkl".data t || hasTripleSemi t ||
  hasRepeatedRun t ||
  hasPairWithWs "test".data t || hasPairWithWs "hello".data t ||
  hasPairWithWs "blah".data t ||
  matchesStockReply t ||
  isSub "lorem ipsum".data t ||
  isSub "i dont know".data t || isSub "i don\x27t know".data t ||
  isSub "no idea".data t || isSub "not sure".data t

/-! ## Result structures (the ad-hoc Python result dicts, with fixed keys) -/

/-- Return value of `detect_gibberish`. -/
structure GibberishVerdict where
  is_gibberish : Bool
  severity : Nat
  issues : List String
deriving DecidableEq, Repr

/-- Return value of `check_answer_relevance`. -/
structure RelevanceResult where
  relevance_score : Int
  question_type : Option String
  issues : List String
  is_relevant : Bool
deriving DecidableEq, Repr

/-- The `details` sub-dict of the result of `analyze_hr_response`.
`star_components_found` is an insertion-ordered dict (empty on the
gibberish-rejection path); `relevance_issues` is `none` when the key is
absent (the gibberish-rejection path omits it). -/
structure AnalysisDetails where
  star_components_found : List (String × Bool)
  confidence_keywords_found : Nat
  leadership_keywords_found : Nat
  red_flags : List String
  relevance_issues : Option (List String)
deriving DecidableEq, Repr

/-- Return value of `analyze_hr_response`; `rejection_reason` is `none`
when the key is absent (the valid path omits it). -/
structure AnalysisResult where
  clarity : Int
  confidence : Int
  structure' : Int
  feedback : String
  total_score : Int
  is_valid : Bool
  rejection_reason : Option String
  details : AnalysisDetails
deriving DecidableEq, Repr

/-! ## `detect_gibberish` -/

/-- Average length of the words of a split, as the exact value of the
float `sum(len(w) for w in words) / len(words)`. -/
def avgWordLen (ws : List Text) : ℚ :=
  qdiv (((ws.map List.length).sum : Nat) : ℚ) ((ws.length : Nat) : ℚ)

/-- Largest number of occurrences among words longer than 2 characters
(`max(word_counts.values())` with 0 for an empty dict). -/
def maxRepetition (ws : List Text) : Nat :=
  let longs := ws.filter (fun w => 2 < w.length)
  ((longs.dedup.map (fun w => longs.count w)).foldr max 0)

/-- The severity/issues accumulation of `detect_gibberish`, rules in
source order, severity the running maximum. -/
def detect_gibberish_core (text : Text) : Nat × List String :=
  let text_lower := lowerT text
  let c1 := hasRedFlagPattern text_lower
  let s1 : Nat := if c1 then max 0 3 else 0
  let i1 : List String := if c1 then ["Contains random or placeholder text"] else []
  let nospace := text_lower.filter (fun c => c ≠ ' ')
  let c2 := decide (20 < nospace.length) && decide (nospace.dedup.length < 8)
  let s2 := if c2 then max s1 3 else s1
  let i2 := if c2 then i1 ++ ["Very low character diversity - appears random"] else i1
  let punct_count := text.countP isPunctC
  let c3 := if 10 < text.length then
      decide (Rat.divInt 3 10 < qdiv ((punct_count : Nat) : ℚ) ((text.length : Nat) : ℚ))
    else false
  let s3 := if c3 then max s2 2 else s2
  let i3 := if c3 then i2 ++ ["Excessive punctuation"] else i2
  let digit_density := qdiv ((text.countP isDigitC : Nat) : ℚ) ((max text.length 1 : Nat) : ℚ)
  let c4 := decide (Rat.divInt 3 10 < digit_density) &&
    !(isSub "%".data text) && !(isSub "$".data text)
  let s4 := if c4 then max s3 2 else s3
  let i4 := if c4 then i3 ++ ["Excessive numbers without context"] else i3
  let words := wordsOf text_lower
  let c5 := if words = [] then false
    else decide (5 < maxRepetition words) && decide (words.length < 50)
  let s5 := if c5 then max s4 2 else s4
  let i5 := if c5 then i4 ++ ["Excessive word repetition"] else i4
  let c6 := if words = [] then false
    else decide ((12 : ℚ) < avgWordLen words) || decide (avgWordLen words < (2 : ℚ))
  let s6 := if c6 then max s5 2 else s5
  let i6 := if c6 then i5 ++ ["Unusual word patterns"] else i5
  (s6, i6)

/-- `detect_gibberish`: the returned dict. -/
def detect_gibberish (text : Text) : GibberishVerdict :=
  let r := detect_gibberish_core text
  { is_gibberish := decide (2 ≤ r.1), severity := r.1, issues := r.2 }

/-! ## `check_answer_relevance` -/

def story_indicators : List String :=
  ["when", "once", "time", "example", "project", "company", "role", "job"]

def generic_starts : List String := [
    "i am a hard worker", "i always try", "i believe in", "i am passionate",
    "communication is important", "teamwork is essential", "i am dedicated"
]

/-- First entry of `QUESTION_RELEVANCE_MAP` one of whose keywords occurs
in the lowercased question (the classification loop, first match wins). -/
def relevance_question_pair (question : Text) : Option (String × List String) :=
  QUESTION_RELEVANCE_MAP.find? (fun p => p.2.any (fun kw => isSub kw.data (lowerT question)))

/-- Issue list and score adjustment of the question-type block of
`check_answer_relevance` (−3 with an issue on zero keyword matches,
+2 on two or more, else 0). -/
def relevance_type_adjustment (question answer : Text) : List String × Int :=
  match relevance_question_pair question with
  | some (q_type, relevant_keywords) =>
    let matches' := relevant_keywords.countP (fun kw => isSub kw.data (lowerT answer))
    if matches' = 0 then
      (["Answer doesn\x27t address the \x27" ++ q_type ++ "\x27 aspect of the question"], -3)
    else if 2 ≤ matches' then ([], 2)
    else ([], 0)
  | none => ([], 0)

/-- `check_answer_relevance`: baseline 5, the four sequential adjustments
(question-type keywords, off-topic phrases with first-match break, missing
story for long answers, generic openers with first-match break), final
score clamped to [0,10]; `is_relevant` is computed from the *unclamped*
score, as in the source. -/
def check_answer_relevance (question answer : Text) : RelevanceResult :=
  let answer_lower := lowerT answer
  let ta := relevance_type_adjustment question answer
  let off := OFF_TOPIC_PHRASES.any (fun p => isSub p.data answer_lower)
  let story_pen := !(story_indicators.any (fun ind => isSub ind.data answer_lower)) &&
    decide (20 < (wordsOf answer).length)
  let generic := generic_starts.any (fun p =>
    p.data.isPrefixOf answer_lower || isSub (". ".data ++ p.data) answer_lower)
  let relevance_score : Int :=
    5 + ta.2 + (if off then -2 else 0) + (if story_pen then -2 else 0) +
      (if generic then -2 else 0)
  { relevance_score := max 0 (min 10 relevance_score),
    question_type := (relevance_question_pair question).map Prod.fst,
    issues := ta.1 ++ (if off then ["Contains off-topic indicators"] else []) ++
      (if story_pen then ["Doesn\x27t provide a specific example or story"] else []) ++
      (if generic then ["Uses generic statements instead of specific examples"] else []),
    is_relevant := decide (4 ≤ relevance_score) }

/-! ## `detect_red_flags` -/

def blame_patterns : List String := [
    "it was their fault", "they made me", "not my fault", "blame",
    "they didn\x27t", "my manager was bad", "my team was incompetent",
    "no one helped me", "they were useless"
]

def negative_patterns : List String := [
    "i hate", "i hated", "stupid", "dumb", "worst", "terrible company",
    "bad manager", "toxic", "the company was awful"
]

/-- The hedging count of `detect_red_flags`, over the module-level
`HEDGING_WORDS` lexicon. -/
def red_flag_hedge_count (answer_lower : Text) : Nat :=
  countHits HEDGING_WORDS answer_lower

/-- `bool(re.search(r'\d+%?', s))`: some digit occurs. -/
def hasNumbers (s : Text) : Bool := s.any isDigitC

/-- `detect_red_flags`: the eight rules, emitted in source order. -/
def detect_red_flags (answer : Text) : List String :=
  let answer_lower := lowerT answer
  let f1 := blame_patterns.any (fun p => isSub p.data answer_lower)
  let f2 := negative_patterns.any (fun p => isSub p.data answer_lower)
  let we_count := countOccs " we ".data answer_lower
  let i_count := countOccs " i ".data answer_lower
  let f3 := decide (5 < we_count) && decide (i_count < 2)
  let has_result_keywords := (dictGet STAR_INDICATORS "result").any (fun kw => isSub kw.data answer_lower)
  let has_numbers := hasNumbers answer
  let word_count := (wordsOf answer).length
  let f4 := decide (50 < word_count) && !has_result_keywords
  let f5 := has_result_keywords && !has_numbers && decide (30 < word_count)
  let f6 := decide (word_count < 30)
  let f7 := decide (3 ≤ red_flag_hedge_count answer_lower)
  let f8 := decide (2 ≤ countHits VAGUE_PHRASES answer_lower)
  (if f1 then ["Blames others instead of taking accountability - major red flag in big tech interviews"] else []) ++
  (if f2 then ["Displays negative attitude about previous employers - interviewers note this"] else []) ++
  (if f3 then ["Uses \x27we\x27 excessively without clarifying your individual contribution"] else []) ++
  (if f4 then ["Long answer with no clear outcome or result mentioned"] else []) ++
  (if f5 then ["Claims results but provides no quantifiable metrics (%, $, time saved, etc.)"] else []) ++
  (if f6 then ["Response is too brief for a behavioral question - shows lack of depth or preparation"] else []) ++
  (if f7 then ["Excessive hedging language undermines confidence"] else []) ++
  (if f8 then ["Uses vague phrases without concrete details - interviewers want specifics"] else [])

/-! ## `evaluate_clarity` -/

/-- `re.split(r'[.!?]', answer)` then strip and drop empties. -/
def sentence_list (answer : Text) : List Text :=
  ((splitOnPred (fun c => c == '.' || c == '!' || c == '?') answer).map stripT).filter
    (fun s => s ≠ [])

/-- Exact value of the float `avg_words_per_sentence`. -/
def avg_words_per_sentence (answer : Text) : ℚ :=
  qdiv ((((sentence_list answer).map (fun s => (wordsOf s).length)).sum : Nat) : ℚ)
    (((sentence_list answer).length : Nat) : ℚ)

/-- The sequential-exclusive sentence-length branch of `evaluate_clarity`
(lines `if 10 <= avg <= 25 … elif … elif … elif`), as the score delta. -/
def clarity_band_bonus (avg : ℚ) : Int :=
  if 10 ≤ avg ∧ avg ≤ 25 then 4
  else if 8 ≤ avg ∧ avg ≤ 30 then 2
  else if 40 < avg then -1
  else if avg < 5 then -1
  else 0

/-- The run-on-sentence bonus of `evaluate_clarity`. -/
def clarity_run_on_bonus (answer : Text) : Int :=
  if ((sentence_list answer).countP (fun s => 40 < (wordsOf s).length)) = 0 ∧
      3 ≤ (sentence_list answer).length then 2 else 0

def sentence_lengths (answer : Text) : List Nat :=
  (sentence_list answer).map (fun s => (wordsOf s).length)

def maxList (l : List Nat) : Nat := l.foldr max 0

def minList (l : List Nat) : Nat :=
  match l with
  | [] => 0
  | a :: rest => rest.foldr min a

/-- The sentence-length-variation bonus of `evaluate_clarity`. -/
def clarity_variation_bonus (answer : Text) : Int :=
  if 4 ≤ (sentence_list answer).length ∧
      5 < maxList (sentence_lengths answer) - minList (sentence_lengths answer) then 1 else 0

/-- `evaluate_clarity`. -/
def evaluate_clarity (answer : Text) : Int :=
  if (wordsOf answer).length < 5 then 1
  else if (wordsOf answer).length < 10 then 2
  else if (wordsOf answer).length < 20 then 3
  else if sentence_list answer = [] then 1
  else if (sentence_list answer).length < 2 then 2
  else
    max 1 (min 10 (3 + clarity_band_bonus (avg_words_per_sentence answer) +
      clarity_run_on_bonus answer + clarity_variation_bonus answer))

/-! ## `evaluate_confidence` -/

def count_confidence_keywords (answer_lower : Text) : Nat :=
  countHits CONFIDENCE_KEYWORDS answer_lower

def count_leadership_keywords (answer_lower : Text) : Nat :=
  countHits LEADERSHIP_KEYWORDS answer_lower

/-- The local `hedging_words` list of `evaluate_confidence` (a shorter
list than the module-level `HEDGING_WORDS`). -/
def confidence_hedging_words : List String :=
  ["maybe", "perhaps", "i think", "i guess", "sort of", "kind of", "probably"]

/-- The hedging count of `evaluate_confidence`, over its local list. -/
def confidence_hedge_count (answer_lower : Text) : Nat :=
  countHits confidence_hedging_words answer_lower

/-- The hedging score delta of `evaluate_confidence`
(`score -= 3` at ≥ 3, `score -= 1` at ≥ 1). -/
def confidence_hedging_penalty (answer_lower : Text) : Int :=
  if 3 ≤ confidence_hedge_count answer_lower then -3
  else if 1 ≤ confidence_hedge_count answer_lower then -1
  else 0

def first_person_patterns : List String :=
  ["i led", "i managed", "i decided", "i took", "my decision", "i initiated"]

/-- The keyword-density tier bonus of `evaluate_confidence`. -/
def confidence_keyword_bonus (total_keywords : Nat) : Int :=
  if 8 ≤ total_keywords then 5
  else if 5 ≤ total_keywords then 4
  else if 3 ≤ total_keywords then 3
  else if 2 ≤ total_keywords then 2
  else if 1 ≤ total_keywords then 1
  else 0

/-- The first-person-ownership bonus of `evaluate_confidence`. -/
def confidence_ownership_bonus (answer_lower : Text) : Int :=
  if 3 ≤ countHits first_person_patterns answer_lower then 2
  else if 1 ≤ countHits first_person_patterns answer_lower then 1
  else 0

/-- `evaluate_confidence` (its argument is the already-lowercased answer,
as at its call site). -/
def evaluate_confidence (answer_lower : Text) : Int :=
  if (wordsOf answer_lower).length < 10 then 2
  else if (wordsOf answer_lower).length < 20 then 3
  else
    max 1 (min 10 (2 +
      confidence_keyword_bonus
        (count_confidence_keywords answer_lower + count_leadership_keywords answer_lower) +
      confidence_ownership_bonus answer_lower +
      confidence_hedging_penalty answer_lower))

/-! ## `detect_star_components` and `evaluate_star_structure` -/

/-- `detect_star_components`: the insertion-ordered dict of the four
STAR components. -/
def detect_star_components (answer_lower : Text) : List (String × Bool) :=
  STAR_INDICATORS.map (fun p => (p.1, p.2.any (fun ind => isSub ind.data answer_lower)))

/-- `components_found.get(k)` with a missing key falsy. -/
def lookupBool (d : List (String × Bool)) (k : String) : Bool :=
  ((d.find? (fun p => p.1 == k)).map Prod.snd).getD false

/-- `sum(components_found.values())`. -/
def star_component_count (answer_lower : Text) : Nat :=
  (detect_star_components answer_lower).countP (fun p => p.2)

/-- The component-count score table of `evaluate_star_structure`. -/
def star_base_score (c : Nat) : Int :=
  if c = 4 then 10 else if c = 3 then 7 else if c = 2 then 4 else if c = 1 then 2 else 1

/-- `evaluate_star_structure` (argument already lowercased, as at its
call site). -/
def evaluate_star_structure (answer_lower : Text) : Int :=
  if (wordsOf answer_lower).length < 10 then 1
  else if (wordsOf answer_lower).length < 20 then 2
  else
    let score := star_base_score (star_component_count answer_lower)
    if lookupBool (detect_star_components answer_lower) "situation" &&
        lookupBool (detect_star_components answer_lower) "result" then
      min 10 (score + 1)
    else score

/-! ## Feedback generators -/

/-- `generate_rejection_feedback`. -/
def generate_rejection_feedback (issues : List String) : String :=
  "This response cannot be evaluated. " ++ String.intercalate " " issues ++ " " ++
  "In a real interview at companies like Google, Amazon, or Microsoft, " ++
  "this type of response would immediately disqualify you. " ++
  "Please provide a genuine, thoughtful answer that describes a specific situation from your experience."

def upperS (s : String) : String := s.map Char.toUpper

/-- `generate_hr_feedback`: the fixed-order multi-section narrative. -/
def generate_hr_feedback (clarity confidence structure' : Int) (answer_lower : Text)
    (red_flags : List String) (relevance_result : Option RelevanceResult) : String :=
  let avg_score : ℚ := qdiv (((clarity + confidence + structure' : Int)) : ℚ) 3
  let p1 : List String :=
    if red_flags ≠ [] then
      ["🚨 CRITICAL ISSUES DETECTED:"] ++ (red_flags.take 3).map (fun flag => "• " ++ flag) ++ [""]
    else []
  let p2 : List String :=
    match relevance_result with
    | some rr =>
      if rr.issues ≠ [] then
        ["⚠️ RELEVANCE CONCERNS:"] ++ (rr.issues.take 2).map (fun issue => "• " ++ issue) ++ [""]
      else []
    | none => []
  let components := detect_star_components answer_lower
  let missing_components := (components.filter (fun p => p.2 = false)).map (fun p => upperS p.1)
  let present_components := (components.filter (fun p => p.2 = true)).map (fun p => upperS p.1)
  let p3 : List String :=
    ["📋 STRUCTURE ANALYSIS:"] ++
    (if 8 ≤ structure' then
      ["• Strong STAR method execution. All components clearly present."]
     else if 5 ≤ structure' then
      ["• Partial STAR structure detected. Found: " ++
        (if present_components ≠ [] then String.intercalate ", " present_components else "None") ++ "."] ++
      (if missing_components ≠ [] then
        ["• Missing: " ++ String.intercalate ", " missing_components ++
         ". At Google/Amazon, incomplete STAR = incomplete answer."]
       else [])
     else if 3 ≤ structure' then
      ["• Weak structure. Your answer rambles without clear organization.",
       "• Missing STAR components: " ++ String.intercalate ", " missing_components ++ ".",
       "• Big tech interviewers are trained to detect missing structure - this would hurt your scorecard."]
     else
      ["• No discernible STAR structure. This is a fundamental requirement for behavioral interviews.",
       "• At companies like Meta, Microsoft, or Amazon, this answer would receive a \x27Not Inclined\x27 rating."]) ++
    [""]
  let we_count := countOccs " we ".data answer_lower
  let i_count := countOccs " i ".data answer_lower
  let p4 : List String :=
    ["💪 OWNERSHIP & CONFIDENCE:"] ++
    (if 8 ≤ confidence then
      ["• Good use of first-person ownership. You clearly articulated your individual contributions."]
     else if 5 ≤ confidence then
      (if i_count < we_count then
        ["• Too much \x27we\x27 and not enough \x27I\x27. Interviewers want to know what YOU did, not your team.",
         "• Hiring managers will ask: \x27But what was YOUR specific contribution?\x27"]
       else
        ["• Moderate confidence shown. Add more action verbs (led, drove, delivered, achieved)."])
     else if 3 ≤ confidence then
      ["• Weak ownership demonstrated. You sound unsure of your own contributions.",
       "• Hedging words like \x27maybe\x27, \x27I think\x27, \x27sort of\x27 undermine your credibility."]
     else
      ["• Poor confidence projection. In a real interview, this would raise doubts about your capabilities.",
       "• Senior interviewers specifically look for candidates who can clearly articulate their impact."]) ++
    [""]
  let p5 : List String :=
    ["🎯 CLARITY & COMMUNICATION:"] ++
    (if 8 ≤ clarity then
      ["• Clear, well-structured sentences. Easy to follow your narrative."]
     else if 5 ≤ clarity then
      ["• Acceptable clarity but could be sharper. Aim for concise, punchy sentences.",
       "• Remember: interviewers are evaluating 5-8 candidates. Make your points memorable."]
     else if 3 ≤ clarity then
      ["• Unclear communication. Sentences are either too long or too choppy.",
       "• Practice the \x27headline + details\x27 approach: state your point, then elaborate."]
     else
      ["• Very poor clarity. Hard to understand your main points.",
       "• This would be flagged as a communication concern in interviewer feedback."]) ++
    [""]
  let has_metrics := hasNumbers answer_lower
  let p6 : List String :=
    if !has_metrics ∧ avg_score < 8 then
      ["📊 MISSING METRICS:",
       "• No quantifiable results mentioned. Big tech LOVES numbers.",
       "• Add metrics like: \x2720% improvement\x27, \x27reduced from 2 weeks to 3 days\x27, \x27$50K saved\x27.",
       ""]
    else []
  let p7 : List String :=
    ["📝 OVERALL ASSESSMENT:"] ++
    (if 8 ≤ avg_score then
      ["• STRONG RESPONSE - Would likely receive a \x27Strong Hire\x27 signal for behavioral fit.",
       "• This demonstrates the depth and structure expected at top tech companies."]
     else if 6 ≤ avg_score then
      ["• ACCEPTABLE RESPONSE - \x27Inclined\x27 but not exceptional.",
       "• In a competitive loop, this might not be enough. Aim higher."]
     else if 4 ≤ avg_score then
      ["• WEAK RESPONSE - Would likely receive a \x27Not Inclined\x27 rating.",
       "• At companies like Amazon (Bar Raiser interviews), this would be concerning.",
       "• You need significant improvement in structure and specificity."]
     else if 2 ≤ avg_score then
      ["• POOR RESPONSE - Would result in \x27Strong No Hire\x27 feedback.",
       "• This answer shows lack of preparation for behavioral interviews.",
       "• Recommend: Study STAR method, prepare 6-8 stories with specific metrics."]
     else
      ["• UNACCEPTABLE RESPONSE - Interview would likely be stopped early.",
       "• This type of answer suggests either unprepared candidate or poor fit.",
       "• Action required: Complete preparation overhaul before real interviews."])
  String.intercalate "\n" (p1 ++ p2 ++ p3 ++ p4 ++ p5 ++ p6 ++ p7)

/-! ## `analyze_hr_response` -/

/-- The float `red_flag_penalty = min(len(red_flags) * 1.5, 5)`. -/
def red_flag_penalty (answer : Text) : ℚ :=
  min (qmul (((detect_red_flags answer).length : Nat) : ℚ) (Rat.divInt 3 2)) 5

/-- `analyze_hr_response`.  `question` defaults to the empty string at the
Python call sites; `if question:` is Python truthiness (non-empty). -/
def analyze_hr_response (answer question : Text) : AnalysisResult :=
  if (detect_gibberish answer).is_gibberish then
    { clarity := 1, confidence := 1, structure' := 1,
      feedback := generate_rejection_feedback (detect_gibberish answer).issues,
      total_score := 1, is_valid := false,
      rejection_reason := some "Invalid response detected",
      details := { star_components_found := [], confidence_keywords_found := 0,
                   leadership_keywords_found := 0,
                   red_flags := (detect_gibberish answer).issues,
                   relevance_issues := none } }
  else
    let answer_lower := lowerT answer
    let relevance_result : Option RelevanceResult :=
      if question ≠ [] then some (check_answer_relevance question answer) else none
    let red_flags := detect_red_flags answer
    let rf_pen : Int := pytrunc (qdiv (red_flag_penalty answer) 2)
    let rel_pen : Int :=
      match relevance_result with
      | some r => if r.is_relevant = false then 3 else 0
      | none => 0
    let clarity_score := max 1 (evaluate_clarity answer - rf_pen)
    let confidence_score := max 1 (evaluate_confidence answer_lower - rf_pen)
    let structure_score := max 1 (evaluate_star_structure answer_lower - rel_pen)
    let total_score :=
      pytrunc (qdiv (((clarity_score + confidence_score + structure_score : Int)) : ℚ) 3)
    { clarity := clarity_score, confidence := confidence_score, structure' := structure_score,
      feedback := generate_hr_feedback clarity_score confidence_score structure_score
        answer_lower red_flags relevance_result,
      total_score := total_score, is_valid := true, rejection_reason := none,
      details := { star_components_found := detect_star_components answer_lower,
                   confidence_keywords_found := count_confidence_keywords answer_lower,
                   leadership_keywords_found := count_leadership_keywords answer_lower,
                   red_flags := red_flags,
                   relevance_issues := some (match relevance_result with
                     | some r => r.issues
                     | none => []) } }

/-!
## Division-checked variants (for the totality claim)

Each data-dependent division of the module is replaced by `checkedDiv`,
which fails (as Python would raise `ZeroDivisionError`) on a zero
denominator; everything else is unchanged.  The divisions by the literal
constants 2 and 3 (`red_flag_penalty / 2`, the two score means) cannot
fail and are left as they are.
-/

/-- Division that fails on a zero denominator. -/
def checkedDiv (a b : ℚ) : Option ℚ := if b = 0 then none else some (qdiv a b)

/-- `detect_gibberish_core` with checked divisions (punctuation ratio,
digit ratio, average word length). -/
def detect_gibberish_core_checked (text : Text) : Option (Nat × List String) := do
  let text_lower := lowerT text
  let c1 := hasRedFlagPattern text_lower
  let s1 : Nat := if c1 then max 0 3 else 0
  let i1 : List String := if c1 then ["Contains random or placeholder text"] else []
  let nospace := text_lower.filter (fun c => c ≠ ' ')
  let c2 := decide (20 < nospace.length) && decide (nospace.dedup.length < 8)
  let s2 := if c2 then max s1 3 else s1
  let i2 := if c2 then i1 ++ ["Very low character diversity - appears random"] else i1
  let punct_count := text.countP isPunctC
  let c3 ← (if 10 < text.length then do
      let r ← checkedDiv ((punct_count : Nat) : ℚ) ((text.length : Nat) : ℚ)
      pure (decide (Rat.divInt 3 10 < r))
    else pure false)
  let s3 := if c3 then max s2 2 else s2
  let i3 := if c3 then i2 ++ ["Excessive punctuation"] else i2
  let digit_density ← checkedDiv ((text.countP isDigitC : Nat) : ℚ) ((max text.length 1 : Nat) : ℚ)
  let c4 := decide (Rat.divInt 3 10 < digit_density) &&
    !(isSub "%".data text) && !(isSub "$".data text)
  let s4 := if c4 then max s3 2 else s3
  let i4 := if c4 then i3 ++ ["Excessive numbers without context"] else i3
  let words := wordsOf text_lower
  let c5 := if words = [] then false
    else decide (5 < maxRepetition words) && decide (words.length < 50)
  let s5 := if c5 then max s4 2 else s4
  let i5 := if c5 then i4 ++ ["Excessive word repetition"] else i4
  let c6 ← (if words = [] then pure false
    else do
      let awl ← checkedDiv (((words.map List.length).sum : Nat) : ℚ) ((words.length : Nat) : ℚ)
      pure (decide ((12 : ℚ) < awl) || decide (awl < (2 : ℚ))))
  let s6 := if c6 then max s5 2 else s5
  let i6 := if c6 then i5 ++ ["Unusual word patterns"] else i5
  pure (s6, i6)

/-- `detect_gibberish` with checked divisions. -/
def detect_gibberish_checked (text : Text) : Option GibberishVerdict := do
  let r ← detect_gibberish_core_checked text
  pure { is_gibberish := decide (2 ≤ r.1), severity := r.1, issues := r.2 }

/-- `evaluate_clarity` with the mean-words-per-sentence division checked. -/
def evaluate_clarity_checked (answer : Text) : Option Int :=
  if (wordsOf answer).length < 5 then some 1
  else if (wordsOf answer).length < 10 then some 2
  else if (wordsOf answer).length < 20 then some 3
  else if sentence_list answer = [] then some 1
  else if (sentence_list answer).length < 2 then some 2
  else do
    let avg ← checkedDiv ((((sentence_list answer).map (fun s => (wordsOf s).length)).sum : Nat) : ℚ)
      (((sentence_list answer).length : Nat) : ℚ)
    pure (max 1 (min 10 (3 + clarity_band_bonus avg +
      clarity_run_on_bonus answer + clarity_variation_bonus answer)))

/-- `analyze_hr_response` with every data-dependent division checked. -/
def analyze_hr_response_checked (answer question : Text) : Option AnalysisResult := do
  let g ← detect_gibberish_checked answer
  if g.is_gibberish then
    pure ({ clarity := 1, confidence := 1, structure' := 1,
            feedback := generate_rejection_feedback g.issues,
            total_score := 1, is_valid := false,
            rejection_reason := some "Invalid response detected",
            details := { star_components_found := [], confidence_keywords_found := 0,
                         leadership_keywords_found := 0,
                         red_flags := g.issues,
                         relevance_issues := none } } : AnalysisResult)
  else do
    let answer_lower := lowerT answer
    let relevance_result : Option RelevanceResult :=
      if question ≠ [] then some (check_answer_relevance question answer) else none
    let red_flags := detect_red_flags answer
    let rf_pen : Int := pytrunc (qdiv (red_flag_penalty answer) 2)
    let rel_pen : Int :=
      match relevance_result with
      | some r => if r.is_relevant = false then 3 else 0
      | none => 0
    let clarity0 ← evaluate_clarity_checked answer
    let clarity_score := max 1 (clarity0 - rf_pen)
    let confidence_score := max 1 (evaluate_confidence answer_lower - rf_pen)
    let structure_score := max 1 (evaluate_star_structure answer_lower - rel_pen)
    let total_score :=
      pytrunc (qdiv (((clarity_score + confidence_score + structure_score : Int)) : ℚ) 3)
    pure ({ clarity := clarity_score, confidence := confidence_score,
            structure' := structure_score,
            feedback := generate_hr_feedback clarity_score confidence_score structure_score
              answer_lower red_flags relevance_result,
            total_score := total_score, is_valid := true, rejection_reason := none,
            details := { star_components_found := detect_star_components answer_lower,
                         confidence_keywords_found := count_confidence_keywords answer_lower,
                         leadership_keywords_found := count_leadership_keywords answer_lower,
                         red_flags := red_flags,
                         relevance_issues := some (match relevance_result with
                           | some r => r.issues
                           | none => []) } } : AnalysisResult)

/-! ## Concrete inputs used by witnesses and counterexamples -/

def C4_answer : Text :=
  "In my previous role I led a team and we delivered the new reporting feature ahead of schedule and customers were satisfied.".data

def C4_question : Text := "Tell me about a challenge you faced".data

/-- The penalty application that claim C4 describes, following the claim's
wording ("both the red-flag and relevance penalties are combined into the
clarity and confidence scores by truncating the float penalty toward zero to
an integer before subtracting it"): the confidence score with the truncated
red-flag penalty *and* the (already integral) relevance penalty subtracted.
Defined only for comparison with `analyze_hr_response`, which applies the
relevance penalty to the structure score instead. -/
def claimed_confidence_with_relevance (answer question : Text) : Int :=
  max 1 (evaluate_confidence (lowerT answer) - pytrunc (qdiv (red_flag_penalty answer) 2) -
    (if question ≠ [] ∧ (check_answer_relevance question answer).is_relevant = false then 3
     else 0))

def C7_text : Text :=
  "We shipped the project on time for our client last spring. Everyone on the team was proud of the final delivered outcome.".data

/-! ## Bridge lemmas -/

theorem qdiv_eq_div (a b : ℚ) : qdiv a b = a / b := (Rat.div_def' a b).symm

theorem qmul_eq_mul (a b : ℚ) : qmul a b = a * b := (Rat.mul_eq_mkRat a b).symm

theorem pytrunc_eq_floor (q : ℚ) (h : 0 ≤ q) : pytrunc q = ⌊q⌋ := by
  have hn : 0 ≤ q.num := Rat.num_nonneg.mpr h
  rw [pytrunc, if_pos hn, Rat.floor_def, Int.natCast_div, Int.toNat_of_nonneg hn]

theorem pytrunc_nonneg {q : ℚ} (h : 0 ≤ q) : 0 ≤ pytrunc q := by
  rw [pytrunc_eq_floor q h]
  exact Int.floor_nonneg.mpr h

/-- `is_gibberish` is exactly `severity >= 2`. -/
theorem is_gibberish_iff (t : Text) :
    (detect_gibberish t).is_gibberish = true ↔ 2 ≤ (detect_gibberish t).severity := by
  simp [detect_gibberish]

/-- On the valid path (gibberish severity < 2), every field of the result
of `analyze_hr_response` in terms of the component functions. -/
theorem analyze_valid_fields (a q : Text) (h : (detect_gibberish a).severity < 2) :
    (analyze_hr_response a q).is_valid = true ∧
    (analyze_hr_response a q).clarity =
      max 1 (evaluate_clarity a - pytrunc (qdiv (red_flag_penalty a) 2)) ∧
    (analyze_hr_response a q).confidence =
      max 1 (evaluate_confidence (lowerT a) - pytrunc (qdiv (red_flag_penalty a) 2)) ∧
    (analyze_hr_response a q).structure' =
      max 1 (evaluate_star_structure (lowerT a) -
        (if q ≠ [] ∧ (check_answer_relevance q a).is_relevant = false then 3 else 0)) ∧
    (analyze_hr_response a q).total_score =
      pytrunc (qdiv ((((analyze_hr_response a q).clarity + (analyze_hr_response a q).confidence +
        (analyze_hr_response a q).structure' : Int)) : ℚ) 3) ∧
    (analyze_hr_response a q).details.star_components_found = detect_star_components (lowerT a) ∧
    (analyze_hr_response a q).details.red_flags = detect_red_flags a ∧
    (analyze_hr_response a q).rejection_reason = none := by
  have hg : (detect_gibberish a).is_gibberish = false := by
    rw [← Bool.not_eq_true]
    intro hc
    exact absurd ((is_gibberish_iff a).mp hc) (by omega)
  rw [analyze_hr_response]
  simp only [hg, Bool.false_eq_true, if_false]
  refine ⟨by trivial, by trivial, by trivial, ?_, by trivial, by trivial, by trivial,
    by trivial⟩
  by_cases hq : q = []
  · simp [hq]
  · by_cases hr : (check_answer_relevance q a).is_relevant = false
    · simp [hq, hr]
    · simp [hq, hr]

theorem clamp110_bounds (s : Int) : 1 ≤ max 1 (min 10 s) ∧ max 1 (min 10 s) ≤ 10 :=
  ⟨le_max_left 1 _, max_le (by norm_num) (min_le_left 10 s)⟩

theorem evaluate_clarity_bounds (a : Text) :
    1 ≤ evaluate_clarity a ∧ evaluate_clarity a ≤ 10 := by
  rw [evaluate_clarity]
  split_ifs <;> first
    | exact ⟨by norm_num, by norm_num⟩
    | exact clamp110_bounds _

theorem evaluate_confidence_bounds (t : Text) :
    1 ≤ evaluate_confidence t ∧ evaluate_confidence t ≤ 10 := by
  rw [evaluate_confidence]
  split_ifs <;> first
    | exact ⟨by norm_num, by norm_num⟩
    | exact clamp110_bounds _

theorem star_base_score_bounds (c : Nat) :
    1 ≤ star_base_score c ∧ star_base_score c ≤ 10 := by
  rw [star_base_score]
  split_ifs <;> norm_num

theorem evaluate_star_structure_bounds (t : Text) :
    1 ≤ evaluate_star_structure t ∧ evaluate_star_structure t ≤ 10 := by
  have hb := star_base_score_bounds (star_component_count t)
  simp only [evaluate_star_structure]
  split_ifs
  · exact ⟨by norm_num, by norm_num⟩
  · exact ⟨by norm_num, by norm_num⟩
  · exact ⟨le_min (by norm_num) (by omega), min_le_left _ _⟩
  · exact hb

theorem red_flag_penalty_nonneg (a : Text) : 0 ≤ red_flag_penalty a := by
  rw [red_flag_penalty, qmul_eq_mul]
  refine le_min (mul_nonneg (by positivity) ?_) (by norm_num)
  rw [Rat.divInt_eq_div]
  norm_num

theorem rf_pen_nonneg (a : Text) : 0 ≤ pytrunc (qdiv (red_flag_penalty a) 2) := by
  rw [qdiv_eq_div]
  exact pytrunc_nonneg (div_nonneg (red_flag_penalty_nonneg a) (by norm_num))

/-- On the gibberish path (severity ≥ 2), the full fixed rejection record. -/
theorem analyze_gibberish_eq (answer question : Text)
    (h : 2 ≤ (detect_gibberish answer).severity) :
    analyze_hr_response answer question =
      { clarity := 1, confidence := 1, structure' := 1,
        feedback := generate_rejection_feedback (detect_gibberish answer).issues,
        total_score := 1, is_valid := false,
        rejection_reason := some "Invalid response detected",
        details := { star_components_found := [], confidence_keywords_found := 0,
                     leadership_keywords_found := 0,
                     red_flags := (detect_gibberish answer).issues,
                     relevance_issues := none } } := by
  rw [analyze_hr_response, if_pos ((is_gibberish_iff answer).mpr h)]

/-- C1: Gibberish gate — whenever the Gibberish Detector reports severity ≥ 2
for the answer, `analyze_hr_response` returns isValid = false, a set
rejectionReason, and clarity = confidence = structure = totalScore = 1
exactly; the whole returned record is a function of the gibberish verdict
alone, so no scorer, relevance-checker or red-flag logic contributes. -/
theorem C1_gibberish_gate (answer question : Text)
    (h : 2 ≤ (detect_gibberish answer).severity) :
    analyze_hr_response answer question =
      { clarity := 1, confidence := 1, structure' := 1,
        feedback := generate_rejection_feedback (detect_gibberish answer).issues,
        total_score := 1, is_valid := false,
        rejection_reason := some "Invalid response detected",
        details := { star_components_found := [], confidence_keywords_found := 0,
                     leadership_keywords_found := 0,
                     red_flags := (detect_gibberish answer).issues,
                     relevance_issues := none } } :=
  analyze_gibberish_eq answer question h

/-- Witness for C1 at the concrete gibberish input "asdf". -/
theorem C1_gibberish_gate_witness :
    2 ≤ (detect_gibberish "asdf".data).severity ∧
    analyze_hr_response "asdf".data [] =
      { clarity := 1, confidence := 1, structure' := 1,
        feedback := generate_rejection_feedback (detect_gibberish "asdf".data).issues,
        total_score := 1, is_valid := false,
        rejection_reason := some "Invalid response detected",
        details := { star_components_found := [], confidence_keywords_found := 0,
                     leadership_keywords_found := 0,
                     red_flags := (detect_gibberish "asdf".data).issues,
                     relevance_issues := none } } :=
  ⟨by decide, C1_gibberish_gate "asdf".data [] (by decide)⟩

/-- C2 counterexample: on the gibberish-rejection path (answer "asdf") the
`star_components_found` field of the returned details is the empty mapping,
not a mapping with the four STAR keys. -/
theorem C2_star_keys_counterexample :
    ((analyze_hr_response "asdf".data []).details.star_components_found).map Prod.fst ≠
      ["situation", "task", "action", "result"] := by decide

/-- C2 (amended): the STAR Component Detector's output always has exactly the
four keys situation, task, action, result (in that order, each mapped to a
boolean); `details.star_components_found` has those four keys on every valid
result, but on the gibberish-rejection path it is the empty mapping. -/
theorem C2_star_keys_amended :
    (∀ t : Text, (detect_star_components t).map Prod.fst =
      ["situation", "task", "action", "result"]) ∧
    (∀ answer question : Text, (analyze_hr_response answer question).is_valid = true →
      ((analyze_hr_response answer question).details.star_components_found).map Prod.fst =
        ["situation", "task", "action", "result"]) ∧
    (∀ answer question : Text, (analyze_hr_response answer question).is_valid = false →
      (analyze_hr_response answer question).details.star_components_found = []) := by
  have hkeys : ∀ t : Text, (detect_star_components t).map Prod.fst =
      ["situation", "task", "action", "result"] := fun t => rfl
  refine ⟨hkeys, ?_, ?_⟩
  · intro answer question hvalid
    by_cases h : 2 ≤ (detect_gibberish answer).severity
    · rw [analyze_gibberish_eq answer question h] at hvalid
      cases hvalid
    · rw [(analyze_valid_fields answer question (by omega)).2.2.2.2.2.1]
      exact hkeys _
  · intro answer question hinvalid
    by_cases h : 2 ≤ (detect_gibberish answer).severity
    · rw [analyze_gibberish_eq answer question h]
    · rw [(analyze_valid_fields answer question (by omega)).1] at hinvalid
      cases hinvalid

/-- Witness for C2 (amended): the detector keys on a sample text, and the
empty mapping on the gibberish-rejection input "asdf". -/
theorem C2_star_keys_amended_witness :
    (detect_star_components "when i did this the result was good".data).map Prod.fst =
      ["situation", "task", "action", "result"] ∧
    (analyze_hr_response "asdf".data []).is_valid = false ∧
    (analyze_hr_response "asdf".data []).details.star_components_found = [] :=
  ⟨C2_star_keys_amended.1 _, by decide,
    C2_star_keys_amended.2.2 "asdf".data [] (by decide)⟩

/-- C3 counterexample: the answer "a,b,c,d,e,f,g,h" has gibberish severity
exactly 2 (moderate, not severe = 3), yet `analyze_hr_response` returns
isValid = false for it — so isValid = false does not happen only at
severity 3. -/
theorem C3_severe_only_counterexample :
    (detect_gibberish "a,b,c,d,e,f,g,h".data).severity = 2 ∧
    (analyze_hr_response "a,b,c,d,e,f,g,h".data []).is_valid = false :=
  ⟨by decide, by decide⟩

/-- C3 (amended): isValid = false exactly when the gibberish severity is ≥ 2
(moderate or severe, not only severe); whenever isValid = false,
clarity = confidence = structure = 1 and totalScore = 1 unconditionally and
no further scoring is performed (the record is the fixed rejection record). -/
theorem C3_invalid_iff_moderate (answer question : Text) :
    ((analyze_hr_response answer question).is_valid = false ↔
      2 ≤ (detect_gibberish answer).severity) ∧
    ((analyze_hr_response answer question).is_valid = false →
      (analyze_hr_response answer question).clarity = 1 ∧
      (analyze_hr_response answer question).confidence = 1 ∧
      (analyze_hr_response answer question).structure' = 1 ∧
      (analyze_hr_response answer question).total_score = 1) := by
  by_cases h : 2 ≤ (detect_gibberish answer).severity
  · rw [analyze_gibberish_eq answer question h]
    exact ⟨by simpa using h, fun _ => ⟨rfl, rfl, rfl, rfl⟩⟩
  · have hv := (analyze_valid_fields answer question (by omega)).1
    rw [hv]
    constructor
    · simp only [Bool.true_eq_false, false_iff]
      omega
    · intro hc
      cases hc

/-- Witness for C3 (amended) at the concrete input "a,b,c,d,e,f,g,h". -/
theorem C3_invalid_iff_moderate_witness :
    ((analyze_hr_response "a,b,c,d,e,f,g,h".data []).is_valid = false ↔
      2 ≤ (detect_gibberish "a,b,c,d,e,f,g,h".data).severity) ∧
    (analyze_hr_response "a,b,c,d,e,f,g,h".data []).clarity = 1 ∧
    (analyze_hr_response "a,b,c,d,e,f,g,h".data []).confidence = 1 ∧
    (analyze_hr_response "a,b,c,d,e,f,g,h".data []).structure' = 1 ∧
    (analyze_hr_response "a,b,c,d,e,f,g,h".data []).total_score = 1 :=
  ⟨(C3_invalid_iff_moderate "a,b,c,d,e,f,g,h".data []).1,
    (C3_invalid_iff_moderate "a,b,c,d,e,f,g,h".data []).2 (by decide)⟩

set_option maxRecDepth 100000 in
/-- C4 counterexample: for the concrete pair (C4_answer, C4_question) the
answer passes the gibberish gate and is found not relevant (relevance penalty
3), yet the returned confidence is 6 — the value without any relevance
subtraction — while the claim's combined-penalty semantics would give 3.
The relevance penalty is therefore not combined into confidence (nor
clarity); the code subtracts it from structure instead. -/
theorem C4_penalty_counterexample :
    (detect_gibberish C4_answer).severity < 2 ∧
    (check_answer_relevance C4_question C4_answer).is_relevant = false ∧
    (analyze_hr_response C4_answer C4_question).confidence = 6 ∧
    claimed_confidence_with_relevance C4_answer C4_question = 3 ∧
    (analyze_hr_response C4_answer C4_question).confidence ≠
      claimed_confidence_with_relevance C4_answer C4_question :=
  ⟨by decide, by decide, by decide, by decide, by decide⟩

/-- C4 (amended): for every answer passing the gibberish gate, the red-flag
penalty is the float min(1.5 × number of red flags, 5); clarity and
confidence are reduced by that float penalty halved and truncated toward
zero to an integer (then floored at 1); the relevance penalty (3 when a
relevance check ran and found the answer not relevant, else 0) is subtracted
from the structure score only, not from clarity or confidence. -/
theorem C4_penalty_application (answer question : Text)
    (h : (detect_gibberish answer).severity < 2) :
    red_flag_penalty answer =
      min (((detect_red_flags answer).length : ℚ) * (3 / 2)) 5 ∧
    (analyze_hr_response answer question).clarity =
      max 1 (evaluate_clarity answer - pytrunc (qdiv (red_flag_penalty answer) 2)) ∧
    (analyze_hr_response answer question).confidence =
      max 1 (evaluate_confidence (lowerT answer) - pytrunc (qdiv (red_flag_penalty answer) 2)) ∧
    (analyze_hr_response answer question).structure' =
      max 1 (evaluate_star_structure (lowerT answer) -
        (if question ≠ [] ∧ (check_answer_relevance question answer).is_relevant = false then 3
         else 0)) := by
  have hv := analyze_valid_fields answer question h
  refine ⟨?_, hv.2.1, hv.2.2.1, hv.2.2.2.1⟩
  rw [red_flag_penalty, qmul_eq_mul, Rat.divInt_eq_div]
  norm_num

set_option maxRecDepth 100000 in
/-- Witness for C4 (amended) at the concrete pair (C4_answer, C4_question). -/
theorem C4_penalty_application_witness :
    (analyze_hr_response C4_answer C4_question).confidence =
      max 1 (evaluate_confidence (lowerT C4_answer) -
        pytrunc (qdiv (red_flag_penalty C4_answer) 2)) ∧
    (analyze_hr_response C4_answer C4_question).structure' =
      max 1 (evaluate_star_structure (lowerT C4_answer) -
        (if C4_question ≠ [] ∧ (check_answer_relevance C4_question C4_answer).is_relevant = false
         then 3 else 0)) :=
  ⟨(C4_penalty_application C4_answer C4_question (by decide)).2.2.1,
   (C4_penalty_application C4_answer C4_question (by decide)).2.2.2⟩

/-- C5 counterexample: for the answer "possibly" the Confidence Scorer's
hedging count is 0 while the Red-Flag Detector's hedging count is 1, so the
two counts are not equal for every answer — the scorer does not use the
shared HEDGING_WORDS lexicon but its own shorter local list. -/
theorem C5_hedging_counterexample :
    confidence_hedge_count "possibly".data = 0 ∧
    red_flag_hedge_count "possibly".data = 1 ∧
    confidence_hedge_count "possibly".data ≠ red_flag_hedge_count "possibly".data :=
  ⟨by decide, by decide, by decide⟩

/-- C5 (amended): the Confidence Scorer counts distinct hedging terms over
its own local 7-entry list, which equals the first seven entries of the
shared HEDGING_WORDS lexicon; this count never exceeds (but can differ from)
the Red-Flag Detector's count over the full lexicon, and the scorer's
penalty is −3 when its own count is ≥ 3, −1 when it is in [1,3), and 0 when
it is 0. -/
theorem C5_hedging_lexicon (answer_lower : Text) :
    confidence_hedging_words = HEDGING_WORDS.take 7 ∧
    confidence_hedge_count answer_lower ≤ red_flag_hedge_count answer_lower ∧
    (3 ≤ confidence_hedge_count answer_lower →
      confidence_hedging_penalty answer_lower = -3) ∧
    (1 ≤ confidence_hedge_count answer_lower → confidence_hedge_count answer_lower < 3 →
      confidence_hedging_penalty answer_lower = -1) ∧
    (confidence_hedge_count answer_lower = 0 →
      confidence_hedging_penalty answer_lower = 0) := by
  refine ⟨by decide, ?_, ?_, ?_, ?_⟩
  · have hsplit : HEDGING_WORDS = confidence_hedging_words ++ HEDGING_WORDS.drop 7 := by decide
    rw [red_flag_hedge_count, confidence_hedge_count, countHits, countHits, hsplit,
      List.countP_append]
    omega
  · intro h3
    rw [confidence_hedging_penalty, if_pos h3]
  · intro h1 hlt
    rw [confidence_hedging_penalty, if_neg (by omega), if_pos h1]
  · intro h0
    rw [confidence_hedging_penalty, if_neg (by omega), if_neg (by omega)]

/-- Witness for C5 (amended) at concrete hedging-heavy and hedging-free
answers. -/
theorem C5_hedging_lexicon_witness :
    confidence_hedge_count "maybe i think it was perhaps fine".data ≤
      red_flag_hedge_count "maybe i think it was perhaps fine".data ∧
    confidence_hedging_penalty "maybe i think it was perhaps fine".data = -3 ∧
    confidence_hedging_penalty "maybe so".data = -1 ∧
    confidence_hedging_penalty "clean text".data = 0 :=
  ⟨(C5_hedging_lexicon "maybe i think it was perhaps fine".data).2.1,
   (C5_hedging_lexicon "maybe i think it was perhaps fine".data).2.2.1 (by decide),
   (C5_hedging_lexicon "maybe so".data).2.2.2.1 (by decide) (by decide),
   (C5_hedging_lexicon "clean text".data).2.2.2.2 (by decide)⟩

/-- For an integer sum of three scores in [3,30], the truncated mean is in
[1,10]. -/
theorem pytrunc_div3_bounds (s : Int) (h3 : 3 ≤ s) (h30 : s ≤ 30) :
    1 ≤ pytrunc (qdiv ((s : ℚ)) 3) ∧ pytrunc (qdiv ((s : ℚ)) 3) ≤ 10 := by
  rw [qdiv_eq_div]
  have hs : (3 : ℚ) ≤ (s : ℚ) := by exact_mod_cast h3
  have hs' : (s : ℚ) ≤ 30 := by exact_mod_cast h30
  have h0 : (0 : ℚ) ≤ (s : ℚ) / 3 := div_nonneg (by linarith) (by norm_num)
  rw [pytrunc_eq_floor _ h0]
  constructor
  · exact Int.le_floor.mpr (by rw [Int.cast_one, le_div_iff (by norm_num : (0:ℚ) < 3)]; linarith)
  · have hle : (s : ℚ) / 3 ≤ 10 := by
      rw [div_le_iff (by norm_num : (0:ℚ) < 3)]
      linarith
    calc ⌊(s : ℚ) / 3⌋ ≤ ⌊(10 : ℚ)⌋ := Int.floor_mono hle
      _ = 10 := by norm_num

/-- C6: for every (answer, question) pair, the clarity, confidence and
structure fields of the returned result are integers in [1,10] after all
adjustments; totalScore equals the mean of the three truncated toward zero;
hence totalScore is also in [1,10]. -/
theorem C6_score_bounds (answer question : Text) :
    (1 ≤ (analyze_hr_response answer question).clarity ∧
      (analyze_hr_response answer question).clarity ≤ 10) ∧
    (1 ≤ (analyze_hr_response answer question).confidence ∧
      (analyze_hr_response answer question).confidence ≤ 10) ∧
    (1 ≤ (analyze_hr_response answer question).structure' ∧
      (analyze_hr_response answer question).structure' ≤ 10) ∧
    (analyze_hr_response answer question).total_score =
      pytrunc (qdiv ((((analyze_hr_response answer question).clarity +
        (analyze_hr_response answer question).confidence +
        (analyze_hr_response answer question).structure' : Int)) : ℚ) 3) ∧
    (1 ≤ (analyze_hr_response answer question).total_score ∧
      (analyze_hr_response answer question).total_score ≤ 10) := by
  by_cases h : 2 ≤ (detect_gibberish answer).severity
  · rw [analyze_gibberish_eq answer question h]
    refine ⟨⟨by norm_num, by norm_num⟩, ⟨by norm_num, by norm_num⟩,
      ⟨by norm_num, by norm_num⟩, ?_, by norm_num, by norm_num⟩
    show (1 : Int) = pytrunc (qdiv (((1 + 1 + 1 : Int)) : ℚ) 3)
    decide
  · have hv := analyze_valid_fields answer question (by omega)
    have hcb := evaluate_clarity_bounds answer
    have hfb := evaluate_confidence_bounds (lowerT answer)
    have hsb := evaluate_star_structure_bounds (lowerT answer)
    have hpen := rf_pen_nonneg answer
    have hrel : (0 : Int) ≤
        (if question ≠ [] ∧ (check_answer_relevance question answer).is_relevant = false then 3
         else 0) := by
      split_ifs <;> norm_num
    have hc : 1 ≤ (analyze_hr_response answer question).clarity ∧
        (analyze_hr_response answer question).clarity ≤ 10 := by
      rw [hv.2.1]
      exact ⟨le_max_left 1 _, max_le (by norm_num) (by omega)⟩
    have hf : 1 ≤ (analyze_hr_response answer question).confidence ∧
        (analyze_hr_response answer question).confidence ≤ 10 := by
      rw [hv.2.2.1]
      exact ⟨le_max_left 1 _, max_le (by norm_num) (by omega)⟩
    have hs : 1 ≤ (analyze_hr_response answer question).structure' ∧
        (analyze_hr_response answer question).structure' ≤ 10 := by
      rw [hv.2.2.2.1]
      exact ⟨le_max_left 1 _, max_le (by norm_num) (by omega)⟩
    refine ⟨hc, hf, hs, hv.2.2.2.2.1, ?_⟩
    rw [hv.2.2.2.2.1]
    exact pytrunc_div3_bounds _ (by omega) (by omega)

/-- C7: for every answer of at least 20 words splitting into at least 2
non-empty sentences, the sentence-length bands of the Clarity Scorer are
sequential-exclusive, first match wins: a mean in [10,25] gives bonus +4
(the +2 band is not also applied), a mean in [8,30] but outside [10,25]
gives +2, and the −1 penalties fire only when neither bonus band matched
(mean > 40, or mean < 5); on such answers `evaluate_clarity` is the clamped
base 3 plus exactly one band delta plus the two independent bonuses. -/
theorem C7_band_first_match (answer : Text)
    (h20 : 20 ≤ (wordsOf answer).length)
    (h2 : 2 ≤ (sentence_list answer).length) :
    (10 ≤ avg_words_per_sentence answer → avg_words_per_sentence answer ≤ 25 →
      clarity_band_bonus (avg_words_per_sentence answer) = 4) ∧
    (8 ≤ avg_words_per_sentence answer → avg_words_per_sentence answer ≤ 30 →
      ¬ (10 ≤ avg_words_per_sentence answer ∧ avg_words_per_sentence answer ≤ 25) →
      clarity_band_bonus (avg_words_per_sentence answer) = 2) ∧
    (40 < avg_words_per_sentence answer →
      clarity_band_bonus (avg_words_per_sentence answer) = -1) ∧
    (avg_words_per_sentence answer < 5 →
      clarity_band_bonus (avg_words_per_sentence answer) = -1) ∧
    evaluate_clarity answer =
      max 1 (min 10 (3 + clarity_band_bonus (avg_words_per_sentence answer) +
        clarity_run_on_bonus answer + clarity_variation_bonus answer)) := by
  refine ⟨?_, ?_, ?_, ?_, ?_⟩
  · intro ha hb
    rw [clarity_band_bonus, if_pos ⟨ha, hb⟩]
  · intro ha hb hn
    rw [clarity_band_bonus, if_neg hn, if_pos ⟨ha, hb⟩]
  · intro hgt
    rw [clarity_band_bonus, if_neg (fun hc => by linarith [hc.2]),
      if_neg (fun hc => by linarith [hc.2]), if_pos hgt]
  · intro hlt
    rw [clarity_band_bonus, if_neg (fun hc => by linarith [hc.1]),
      if_neg (fun hc => by linarith [hc.1]), if_neg (by linarith), if_pos hlt]
  · have hnn : ¬ sentence_list answer = [] := by
      intro hn
      rw [hn] at h2
      simp at h2
    rw [evaluate_clarity, if_neg (by omega), if_neg (by omega), if_neg (by omega),
      if_neg hnn, if_neg (by omega)]

/-- Witness for C7 at C7_text (22 words, 2 sentences of 11 words each, so
mean 11 ∈ [10,25] and the band bonus is +4). -/
theorem C7_band_first_match_witness :
    20 ≤ (wordsOf C7_text).length ∧ 2 ≤ (sentence_list C7_text).length ∧
    10 ≤ avg_words_per_sentence C7_text ∧ avg_words_per_sentence C7_text ≤ 25 ∧
    clarity_band_bonus (avg_words_per_sentence C7_text) = 4 ∧
    evaluate_clarity C7_text =
      max 1 (min 10 (3 + clarity_band_bonus (avg_words_per_sentence C7_text) +
        clarity_run_on_bonus C7_text + clarity_variation_bonus C7_text)) :=
  ⟨by decide, by decide, by decide, by decide,
   (C7_band_first_match C7_text (by decide) (by decide)).1 (by decide) (by decide),
   (C7_band_first_match C7_text (by decide) (by decide)).2.2.2.2⟩

/-- The question-type adjustment of the Relevance Checker is −3, 0 or +2. -/
theorem relevance_type_adjustment_range (question answer : Text) :
    -3 ≤ (relevance_type_adjustment question answer).2 ∧
      (relevance_type_adjustment question answer).2 ≤ 2 := by
  unfold relevance_type_adjustment
  split
  · dsimp only
    split_ifs <;> exact ⟨by norm_num, by norm_num⟩
  · exact ⟨by norm_num, by norm_num⟩

/-- C8: the Relevance Checker's returned relevanceScore is clamped to
[0,10]; the returned isRelevant flag holds iff the returned (clamped)
relevanceScore is ≥ 4 (the source computes the flag from the unclamped
score, but the two agree since the unclamped score is at most 7 and
clamping moves only negative scores, which are below 4 on both sides); and
the baseline score 5 is returned untouched when no adjustment fires, e.g.
for the empty question and answer. -/
theorem C8_relevance_clamp_and_flag (question answer : Text) :
    (0 ≤ (check_answer_relevance question answer).relevance_score ∧
      (check_answer_relevance question answer).relevance_score ≤ 10) ∧
    ((check_answer_relevance question answer).is_relevant = true ↔
      4 ≤ (check_answer_relevance question answer).relevance_score) ∧
    (check_answer_relevance [] []).relevance_score = 5 := by
  have hta := relevance_type_adjustment_range question answer
  refine ⟨⟨?_, ?_⟩, ?_, by decide⟩ <;>
    simp only [check_answer_relevance, decide_eq_true_eq] <;>
    split_ifs <;> omega

theorem checkedDiv_eq_some (a b : ℚ) (h : b ≠ 0) : checkedDiv a b = some (qdiv a b) := by
  rw [checkedDiv, if_neg h]

/-- The checked gibberish core never fails and agrees with the unchecked
one: every division it performs has a non-zero denominator on its path. -/
theorem detect_gibberish_core_checked_eq (text : Text) :
    detect_gibberish_core_checked text = some (detect_gibberish_core text) := by
  have h1 : ((max text.length 1 : Nat) : ℚ) ≠ 0 := by
    rw [Nat.cast_ne_zero]
    omega
  have h3 : ¬ wordsOf (lowerT text) = [] →
      (((wordsOf (lowerT text)).length : Nat) : ℚ) ≠ 0 := by
    intro hw
    rw [Nat.cast_ne_zero]
    have := List.length_pos.mpr hw
    omega
  by_cases hlen : 10 < text.length
  · have h2 : ((text.length : Nat) : ℚ) ≠ 0 := by
      rw [Nat.cast_ne_zero]
      omega
    by_cases hw : wordsOf (lowerT text) = []
    · simp only [detect_gibberish_core_checked, detect_gibberish_core, avgWordLen, hlen, hw,
        checkedDiv_eq_some _ _ h1, checkedDiv_eq_some _ _ h2, if_true, ite_true, ite_false,
        eq_self_iff_true]
      rfl
    · simp only [detect_gibberish_core_checked, detect_gibberish_core, avgWordLen, hlen, hw,
        checkedDiv_eq_some _ _ h1, checkedDiv_eq_some _ _ h2, checkedDiv_eq_some _ _ (h3 hw),
        if_true, ite_true, ite_false, eq_self_iff_true]
      rfl
  · by_cases hw : wordsOf (lowerT text) = []
    · simp only [detect_gibberish_core_checked, detect_gibberish_core, avgWordLen, hlen, hw,
        checkedDiv_eq_some _ _ h1, if_true, ite_true, ite_false, eq_self_iff_true]
      rfl
    · simp only [detect_gibberish_core_checked, detect_gibberish_core, avgWordLen, hlen, hw,
        checkedDiv_eq_some _ _ h1, checkedDiv_eq_some _ _ (h3 hw), if_true, ite_true, ite_false,
        eq_self_iff_true]
      rfl

theorem detect_gibberish_checked_eq (t : Text) :
    detect_gibberish_checked t = some (detect_gibberish t) := by
  simp [detect_gibberish_checked, detect_gibberish, detect_gibberish_core_checked_eq]

/-- The checked clarity scorer never fails: its one division happens only
with at least two sentences. -/
theorem evaluate_clarity_checked_eq (answer : Text) :
    evaluate_clarity_checked answer = some (evaluate_clarity answer) := by
  rw [evaluate_clarity_checked, evaluate_clarity]
  split_ifs with h1 h2 h3 h4 h5
  · rfl
  · rfl
  · rfl
  · rfl
  · rfl
  · have hd : (((sentence_list answer).length : Nat) : ℚ) ≠ 0 := by
      rw [Nat.cast_ne_zero]
      omega
    simp [checkedDiv, hd, avg_words_per_sentence]

/-- C9: totality — the pipeline with every data-dependent division guarded
(failing exactly where Python would raise ZeroDivisionError) succeeds on
every input, including the empty string and arbitrary garbage, and returns
exactly the result of `analyze_hr_response`: the digit-ratio,
average-word-length, punctuation-ratio and mean-words-per-sentence
denominators are all non-zero on the paths where they are evaluated. -/
theorem C9_no_division_by_zero (answer question : Text) :
    analyze_hr_response_checked answer question =
      some (analyze_hr_response answer question) := by
  rw [analyze_hr_response_checked, analyze_hr_response]
  rw [detect_gibberish_checked_eq answer]
  by_cases h : (detect_gibberish answer).is_gibberish
  · simp [h]
  · simp [h, evaluate_clarity_checked_eq answer]

/-- C10: the empty answer, with or without a question, is not gibberish;
`analyze_hr_response` returns isValid = true with clarity 1, confidence 2,
structure 1, totalScore 1; the red-flag list is exactly the single
too-brief flag; and the truncated red-flag penalty int(1.5/2) is 0, so
nothing is subtracted from clarity or confidence. -/
theorem C10_empty_answer (question : Text) :
    (detect_gibberish []).severity < 2 ∧
    (analyze_hr_response [] question).is_valid = true ∧
    (analyze_hr_response [] question).clarity = 1 ∧
    (analyze_hr_response [] question).confidence = 2 ∧
    (analyze_hr_response [] question).structure' = 1 ∧
    (analyze_hr_response [] question).total_score = 1 ∧
    (analyze_hr_response [] question).details.red_flags =
      ["Response is too brief for a behavioral question - shows lack of depth or preparation"] ∧
    pytrunc (qdiv (red_flag_penalty []) 2) = 0 := by
  have hv := analyze_valid_fields [] question (by decide)
  have hc : (analyze_hr_response [] question).clarity = 1 := by
    rw [hv.2.1]
    decide
  have hf : (analyze_hr_response [] question).confidence = 2 := by
    rw [hv.2.2.1]
    decide
  have hs : (analyze_hr_response [] question).structure' = 1 := by
    rw [hv.2.2.2.1]
    split_ifs
    · decide
    · decide
  have ht : (analyze_hr_response [] question).total_score = 1 := by
    rw [hv.2.2.2.2.1, hc, hf, hs]
    decide
  have hr : (analyze_hr_response [] question).details.red_flags =
      ["Response is too brief for a behavioral question - shows lack of depth or preparation"] := by
    rw [hv.2.2.2.2.2.2.1]
    decide
  exact ⟨by decide, hv.1, hc, hf, hs, ht, hr, by decide⟩

/-- Witness for C8 at a concrete question/answer pair and at the empty
pair. -/
theorem C8_relevance_clamp_and_flag_witness :
    (0 ≤ (check_answer_relevance "tell me about a challenge".data "i worked on it".data).relevance_score ∧
      (check_answer_relevance "tell me about a challenge".data "i worked on it".data).relevance_score ≤ 10) ∧
    ((check_answer_relevance "tell me about a challenge".data "i worked on it".data).is_relevant = true ↔
      4 ≤ (check_answer_relevance "tell me about a challenge".data "i worked on it".data).relevance_score) ∧
    (check_answer_relevance [] []).relevance_score = 5 :=
  C8_relevance_clamp_and_flag "tell me about a challenge".data "i worked on it".data
